import Mathlib

/-!
Verification of the cloudflare-php-log worker (src/index.ts, second revision,
and src/analyticsClient.ts) against its natural-language specification.

The TypeScript runtime values that flow through the code are modelled by the
inductive type `Js` below.  JavaScript numbers are modelled as `Int`: the code
never performs arithmetic on them (they are only moved around and converted to
strings), and every number appearing in the claims is an integer.  JavaScript
strings are modelled as Lean `String`; positional operations (`slice`,
indexing) are modelled on the character sequence.
-/

set_option maxHeartbeats 1000000
set_option maxRecDepth 100000

/-- A JavaScript runtime value: `undefined`, `null`, booleans, (integer)
numbers, strings, arrays and plain objects.  Objects are association lists;
the embedding only ever builds objects whose keys are distinct, matching the
JavaScript object model. -/
inductive Js where
  | undefined : Js
  | null : Js
  | bool (b : Bool) : Js
  | num (n : Int) : Js
  | str (s : String) : Js
  | arr (xs : List Js) : Js
  | obj (fs : List (String × Js)) : Js

/-- JavaScript truthiness (NaN is not modelled; no NaN is ever produced). -/
def Js.truthy : Js → Bool
  | .undefined => false
  | .null => false
  | .bool b => b
  | .num n => n != 0
  | .str s => s != ""
  | .arr _ => true
  | .obj _ => true

/-- The JavaScript `typeof` operator, as a string. -/
def Js.typeofStr : Js → String
  | .undefined => "undefined"
  | .null => "object"
  | .bool _ => "boolean"
  | .num _ => "number"
  | .str _ => "string"
  | .arr _ => "object"
  | .obj _ => "object"

/-- First binding of key `k` in an association list (JavaScript objects never
hold duplicate keys, so this is plain object lookup). -/
def lookupField (fs : List (String × Js)) (k : String) : Option Js :=
  (fs.find? (fun p => p.1 == k)).map (fun p => p.2)

/-- Property access `j.k` (equally `j?.k` on a non-nullish `j`): a present
object field, `undefined` otherwise.  The keys accessed by the embedded code
(`meta`, `schema`, `columns`, `data`, `rows`, `result`, `items`, `name`) are
not built-in properties of arrays or strings, so non-objects yield
`undefined`. -/
def Js.get (j : Js) (k : String) : Js :=
  match j with
  | .obj fs => (lookupField fs k).getD .undefined
  | _ => .undefined

/-- `Array.isArray`. -/
def Js.isArr : Js → Bool
  | .arr _ => true
  | _ => false

/-- Whether a value is `undefined` (`x === undefined`). -/
def Js.isUndefined : Js → Bool
  | .undefined => true
  | _ => false

/-- Elements of an array value (empty for non-arrays; only used under an
`isArr` guard, mirroring the code). -/
def Js.elems : Js → List Js
  | .arr xs => xs
  | _ => []

mutual
/-- The JavaScript `String(x)` conversion for the modelled value kinds. -/
def jsString : Js → String
  | .undefined => "undefined"
  | .null => "null"
  | .bool b => cond b "true" "false"
  | .num n => toString n
  | .str s => s
  | .obj _ => "[object Object]"
  | .arr xs => jsJoinStr xs
/-- Array-to-string: elements joined by commas. -/
def jsJoinStr : List Js → String
  | [] => ""
  | [x] => jsElemStr x
  | x :: y :: xs => jsElemStr x ++ "," ++ jsJoinStr (y :: xs)
/-- Element rendering inside a joined array: `null` and `undefined` render
as the empty string. -/
def jsElemStr : Js → String
  | .undefined => ""
  | .null => ""
  | .bool b => cond b "true" "false"
  | .num n => toString n
  | .str s => s
  | .obj _ => "[object Object]"
  | .arr xs => jsJoinStr xs
end

/-- Spec-side path accessor: the value sitting at a chain of object keys
(`none` when some step is missing or not an object). -/
def jsAt : Js → List String → Option Js
  | j, [] => some j
  | j, k :: ks =>
    match j with
    | .obj fs =>
      match lookupField fs k with
      | some v => jsAt v ks
      | none => none
    | _ => none

/-! ## analyticsClient.ts -/

/-- `extractCols` from analyticsClient.ts: column names from
`meta.schema.columns[].name`, else `meta.columns[]`, else `columns[]`,
else the empty list. -/
def extractCols (body : Js) : List String :=
  if !body.truthy || !(body.typeofStr == "object") then []
  else
    let c1 := ((body.get "meta").get "schema").get "columns"
    if c1.isArr && c1.elems.all (fun c => c.truthy && ((c.get "name").typeofStr == "string"))
    then c1.elems.map (fun c => jsString (c.get "name"))
    else
      let c2 := (body.get "meta").get "columns"
      if c2.isArr && c2.elems.all (fun c => c.typeofStr == "string")
      then c2.elems.map jsString
      else
        let c3 := body.get "columns"
        if c3.isArr && c3.elems.all (fun c => c.typeofStr == "string")
        then c3.elems.map jsString
        else []

/-- `Array.isArray(x)` packaged with the checked value: the elements when
`x` is an array, `none` otherwise. -/
def arrVal (j : Js) : Option (List Js) :=
  match j with
  | .arr xs => some xs
  | _ => none

/-- `extractRows` from analyticsClient.ts: the first of `data`, `rows`,
`result`, `items` that is an array (each step is
`if (Array.isArray(anyBody.k)) return anyBody.k`), else the empty list. -/
def extractRows (body : Js) : List Js :=
  if !body.truthy || !(body.typeofStr == "object") then []
  else
    (arrVal (body.get "data")).getD
      ((arrVal (body.get "rows")).getD
        ((arrVal (body.get "result")).getD
          ((arrVal (body.get "items")).getD [])))

/-- JavaScript numeric indexing `v[i]` as it occurs in the row-zipping loop.
`none` models a thrown TypeError (indexing `null` or `undefined`); all other
value kinds yield a value (possibly `undefined`). -/
def rowIndex : Js → Nat → Option Js
  | .arr xs, i => some ((xs[i]?).getD .undefined)
  | .obj fs, i => some ((lookupField fs (toString i)).getD .undefined)
  | .str s, i => some ((s.data[i]?.map (fun c => Js.str (String.singleton c))).getD .undefined)
  | .num _, _ => some .undefined
  | .bool _, _ => some .undefined
  | .null, _ => none
  | .undefined, _ => none

/-- JavaScript property assignment `obj[k] = v` on an association list:
overwrite an existing key in place, otherwise append. -/
def objSet (fs : List (String × Js)) (k : String) (v : Js) : List (String × Js) :=
  if fs.any (fun p => p.1 == k) then fs.map (fun p => if p.1 == k then (k, v) else p)
  else fs ++ [(k, v)]

/-- The zipping loop body of `queryAnalyticsEngine`: assign
`obj[cols[i]] = rowArr[i]` for each column index.  `none` models the loop
throwing (row is `null`/`undefined` and at least one column exists). -/
def zipRowAux (row : Js) : List String → Nat → List (String × Js) → Option (List (String × Js))
  | [], _, fs => some fs
  | k :: ks, i, fs =>
    match rowIndex row i with
    | some v => zipRowAux row ks (i + 1) (objSet fs k v)
    | none => none

/-- One zipped row: the object built by the loop, or a thrown error. -/
def zipRow (cols : List String) (row : Js) : Option Js :=
  (zipRowAux row cols 0 []).map Js.obj

/-- `rows.map(f)` where the mapped function can throw: the first throw
aborts the whole map. -/
def mapOpt (f : Js → Option Js) : List Js → Option (List Js)
  | [] => some []
  | x :: xs =>
    match f x with
    | some y => (mapOpt f xs).map (fun ys => y :: ys)
    | none => none

/-- The typed result of `queryAnalyticsEngine`. -/
structure AEQueryResult where
  count : Nat
  items : List Js

/-- The guard `cols.length > 0 && Array.isArray(rows) && rows.length > 0 &&
Array.isArray(rows[0])` (rows is always an array here). -/
def zipBranch (cols : List String) (rows : List Js) : Bool :=
  (cols.length != 0) && (rows.length != 0) && ((rows.head?.getD .undefined).isArr)

/-- The pure normalisation tail of `queryAnalyticsEngine` applied to the
parsed response body.  When the zip branch is not taken, the two remaining
source branches (`typeof rows[0] === 'object'` pass-through and the final
fallback `rows || []`) both yield `rows` unchanged, so they are collapsed.
`none` models the zipping loop throwing. -/
def aeNormalize (body : Js) : Option AEQueryResult :=
  let cols := extractCols body
  let rows := extractRows body
  if zipBranch cols rows then
    (mapOpt (zipRow cols) rows).map (fun items => ⟨items.length, items⟩)
  else
    some ⟨rows.length, rows⟩

/-- Observable outcome of a call to `queryAnalyticsEngine`. -/
inductive AEOutcome where
  | ok (r : AEQueryResult) : AEOutcome
  | apiError (status : Nat) (txt : String) : AEOutcome
  | typeError : AEOutcome

/-- `queryAnalyticsEngine` as a function of the upstream HTTP outcome:
`resOk`/`status` from the response, `bodyText` the result of `res.text()`
(`none` = read failure, recovered to the empty string), `bodyJson` the result
of `res.json()` (`none` = parse failure, recovered to the empty object by
`.catch(() => ({}))`). -/
def queryAnalyticsEngine (resOk : Bool) (status : Nat) (bodyText : Option String)
    (bodyJson : Option Js) : AEOutcome :=
  if !resOk then .apiError status (bodyText.getD "")
  else
    match aeNormalize (bodyJson.getD (Js.obj [])) with
    | some r => .ok r
    | none => .typeError

/-! ## index.ts: string helpers

JavaScript string positions count UTF-16 code units; the embedding counts
characters.  Every position-sensitive operation in the code (`slice(0, 140)`,
`slice(7)` after an ASCII prefix test) acts on ASCII prefixes, where the two
coincide. -/

/-- JS `s.slice(0, n)` (and truncation to `n` characters). -/
def strTake (s : String) (n : Nat) : String := String.mk (s.data.take n)

/-- JS `s.slice(n)`. -/
def strDrop (s : String) (n : Nat) : String := String.mk (s.data.drop n)

/-- JS `s.startsWith(pre)`. -/
def strStarts (s pre : String) : Bool := pre.data.isPrefixOf s.data

/-- ASCII lowering, modelling the `/i` regex flag for the ASCII patterns the
code matches against. -/
def lowerStr (s : String) : String := String.mk (s.data.map Char.toLower)

/-! ## index.ts: request classifier -/

/-- One regex alternative at the head of the character list: a literal `.`
followed by `php` case-insensitively, then end-of-input, `/` or `?`. -/
def phpAtHead : List Char → Bool
  | c1 :: c2 :: c3 :: c4 :: rest =>
    (c1 == '.') && (c2 == 'p' || c2 == 'P') && (c3 == 'h' || c3 == 'H')
      && (c4 == 'p' || c4 == 'P')
      && (match rest with
          | [] => true
          | r :: _ => r == '/' || r == '?')
  | _ => false

/-- Scan for a match of `/\.php(?:$|[\/?])/i` anywhere in the list. -/
def phpScan : List Char → Bool
  | [] => false
  | c :: cs => phpAtHead (c :: cs) || phpScan cs

/-- `isPhpPath` from index.ts: `/\.php(?:$|[\/?])/i.test(path)`. -/
def isPhpPath (path : String) : Bool := phpScan path.data

/-- `isAPIPath` from index.ts: `/^\/_php_log/i.test(path)`. -/
def isAPIPath (path : String) : Bool := strStarts (lowerStr path) "/_php_log"

/-! ## index.ts: telemetry emitter -/

/-- `typeof cf.country === 'string' ? cf.country : 'ZZ'`. -/
def cfCountry (cf : Js) : String :=
  match cf.get "country" with
  | .str s => s
  | _ => "ZZ"

/-- `typeof cf.region === 'string' ? cf.region : ''`. -/
def cfRegion (cf : Js) : String :=
  match cf.get "region" with
  | .str s => s
  | _ => ""

/-- `cf.asn != null ? String(cf.asn) : '0'` (the loose `!= null` is false
exactly for `null` and `undefined`). -/
def cfAsn (cf : Js) : String :=
  match cf.get "asn" with
  | .null => "0"
  | .undefined => "0"
  | v => jsString v

/-- `extractCfInfo` from index.ts, as (country, region, asn):
`const cf = (req as any).cf || {}`, then the three defaulted fields. -/
def extractCfInfo (cf0 : Js) : String × String × String :=
  let cf := if cf0.truthy then cf0 else Js.obj []
  (cfCountry cf, cfRegion cf, cfAsn cf)

/-- One record submitted to `env.PHP_LOG_AE.writeDataPoint`. -/
structure DataPoint where
  blobs : List String
  doubles : List Int
  indexes : List String

/-- Fault injected into the telemetry block: `ok` (no error),
`constructThrow` (metadata construction throws inside the `try`, before any
sink call), `writeThrow` (`writeDataPoint` throws synchronously, caught by
the same `try`), `writeReject` (the write promise rejects, swallowed by
`.catch`).  In the last two cases the submission was attempted. -/
inductive TelemetryFault where
  | ok : TelemetryFault
  | constructThrow : TelemetryFault
  | writeThrow : TelemetryFault
  | writeReject : TelemetryFault

/-! ## index.ts: reporting gateway -/

/-- A single-quote character, written via its code point. -/
def sqc : String := String.singleton (Char.ofNat 39)

/-- The recent-events query (template literal at the `/_php_log_last` case;
whitespace normalised). -/
def sqlLast : String :=
  "SELECT timestamp, blob1 AS path, blob2 AS country, blob3 AS region, blob4 AS ua, blob5 AS asn FROM PHP_LOG WHERE timestamp >= NOW() - INTERVAL "
    ++ sqc ++ "1" ++ sqc ++ " DAY ORDER BY timestamp DESC LIMIT 20"

/-- The top-paths query (template literal at the `/_php_log` and
`/_php_log_top` cases; whitespace normalised). -/
def sqlTop : String :=
  "SELECT blob1 AS path, count() AS hits FROM PHP_LOG WHERE timestamp >= NOW() - INTERVAL "
    ++ sqc ++ "1" ++ sqc ++ " MONTH GROUP BY path ORDER BY hits DESC LIMIT 20"

/-- The `switch (pathname)` of the reporting block: the query chosen for a
reporting path, `none` for the `default` branch (404).  Both queries are
non-empty strings, so the subsequent `if (sql !== '')` in the source is
always taken and is not modelled separately. -/
def dispatchSql (pathname : String) : Option String :=
  if pathname == "/_php_log_last" then some sqlLast
  else if pathname == "/_php_log" || pathname == "/_php_log_top" then some sqlTop
  else none

/-- `const token = authHeader.startsWith('Bearer ') ? authHeader.slice(7) : ''`. -/
def bearerToken (authHeader : String) : String :=
  if strStarts authHeader "Bearer " then strDrop authHeader 7 else ""

/-- A response body: either JSON-rendered (`new Response(JSON.stringify(j, null, 2))`)
or plain text. -/
inductive RespBody where
  | jsonBody (j : Js) : RespBody
  | textBody (s : String) : RespBody

/-- An HTTP response: status, body, explicitly set headers. -/
structure Resp where
  status : Nat
  body : RespBody
  headers : List (String × String)

/-- The `content-type` header set on JSON responses. -/
def ctJson : String × String := ("content-type", "application/json; charset=utf-8")

/-- The inbound request: hostname and pathname from the URL, the two headers
the code reads (`none` = absent, `headers.get` returns `null`), and the
edge-supplied `cf` object (an arbitrary runtime value at the boundary). -/
structure Req where
  hostname : String
  pathname : String
  userAgent : Option String
  authorization : Option String
  cf : Js

/-- The configuration bindings read by the handler. -/
structure Env where
  QUERY_TOKEN : String
  ACCOUNT_ID : String
  ANALYTICS_API_TOKEN : String

/-- The external world the handler interacts with: the KV cache (`get` with
type json), the upstream analytics API response, the generated UUID, the two
forwarding destinations, and the runtime-dependent error texts of the two
failure paths whose messages the code does not construct itself. -/
structure World where
  kv : String → Option Js
  upstreamOk : Bool
  upstreamStatus : Nat
  upstreamText : Option String
  upstreamJson : Option Js
  uuid : String
  originResp : Resp
  svcResp : Resp
  putUndefErr : String
  parseErr : String

/-- A KV cache write: key, stored JSON value, TTL in seconds. -/
structure KvPut where
  key : String
  value : Js
  ttl : Nat

/-- Everything observable about one handler run: the response, the telemetry
submissions attempted, the cache writes performed, and the upstream analytics
queries issued (as their SQL text). -/
structure HResult where
  resp : Resp
  events : List DataPoint
  kvPuts : List KvPut
  queries : List String

/-- `url.pathname || '/'`. -/
def normPath (p : String) : String := if p == "" then "/" else p

/-- The telemetry block (lines 113-134): if the path is flagged, build the
event and attempt exactly one submission; a construction throw is caught by
the `try` before any submission, a write throw or rejection is swallowed
after the attempt. -/
def telemetryEvents (pathname : String) (req : Req) (uuid : String)
    (fault : TelemetryFault) : List DataPoint :=
  if isPhpPath pathname then
    match fault with
    | .constructThrow => []
    | _ =>
      let info := extractCfInfo req.cf
      let ua := strTake (req.userAgent.getD "") 140
      [⟨[pathname, info.1, info.2.1, ua, info.2.2], [1], [uuid]⟩]
  else []

/-- The upstream-query path of the reporting block (lines 193-217): the
code after the `if (cachedResponse)` hit test falls through to here; one
upstream query is issued and handled inside the `try`/`catch`. -/
def missFlow (pathname : String) (w : World) (sql : String) :
    Resp × List KvPut × List String :=
  if w.upstreamOk then
    match w.upstreamJson with
    | none =>
      -- response.json() rejected; the catch turns `${String(err)}\n` into a 500
      (⟨500, .textBody (w.parseErr ++ "\n"), []⟩, [], [sql])
    | some result =>
      let d := result.get "data"
      if d.isUndefined then
        -- JSON.stringify(undefined) is undefined; KV put throws, caught as a 500
        (⟨500, .textBody (w.putUndefErr ++ "\n"), []⟩, [], [sql])
      else
        (⟨200, .jsonBody d, [ctJson, ("x-cache", "MISS")]⟩, [⟨pathname, d, 60⟩], [sql])
  else
    -- throw new Error(`AE API: ${response.status}: ${txt}`), caught as a 500
    (⟨500,
      .textBody ("Error: AE API: " ++ toString w.upstreamStatus ++ ": "
        ++ w.upstreamText.getD "" ++ "\n"), []⟩, [], [sql])

/-- The cache-and-query flow for a supported reporting path (lines 181-218):
`let cachedResponse = await env.PHP_LOG_KV.get(pathname, { type: json })`
(null when the key is absent) followed by the truthiness hit test
`if (cachedResponse)`.  A present but falsy payload (null, false, 0, the
empty string) fails the test and falls through to the upstream query just
like an absent key. -/
def cacheFlow (pathname : String) (w : World) (sql : String) :
    Resp × List KvPut × List String :=
  match w.kv pathname with
  | some cached =>
    if cached.truthy then
      (⟨200, .jsonBody cached, [ctJson, ("x-cache", "HIT")]⟩, [], [])
    else missFlow pathname w sql
  | none => missFlow pathname w sql

/-- Whether the `if (cachedResponse)` hit test passes: a present and truthy
cached payload. -/
def kvHit (o : Option Js) : Bool :=
  match o with
  | some c => c.truthy
  | none => false

/-- The reporting block after the authorization gate: dispatch to a query or
404. -/
def apiRoute (pathname : String) (w : World) : Resp × List KvPut × List String :=
  match dispatchSql pathname with
  | none => (⟨404, .textBody "API not found\n", []⟩, [], [])
  | some sql => cacheFlow pathname w sql

/-- The reporting block (lines 136-219): `some` when it returns a response,
`none` when the request falls through to domain routing. -/
def gatewayResult (pathname : String) (req : Req) (env : Env) (w : World) :
    Option (Resp × List KvPut × List String) :=
  if isAPIPath pathname then
    if env.QUERY_TOKEN != ""
        && bearerToken (req.authorization.getD "") != env.QUERY_TOKEN then
      some (⟨401, .textBody "Unauthorized\n", []⟩, [], [])
    else
      some (apiRoute pathname w)
  else none

/-- The final `switch (domain)` (lines 221-227): the configured service
binding for the placeholder domain, plain `fetch(request)` otherwise. -/
def routeResp (req : Req) (w : World) : Resp :=
  if req.hostname == "<YOUR_OTHER_WORKER_DOMAIN>" then w.svcResp else w.originResp

/-- The whole `fetch` handler of index.ts (second revision). -/
def handleFetch (req : Req) (env : Env) (w : World) (fault : TelemetryFault) :
    HResult :=
  let pathname := normPath req.pathname
  let events := telemetryEvents pathname req w.uuid fault
  match gatewayResult pathname req env w with
  | some (r, puts, qs) => ⟨r, events, puts, qs⟩
  | none => ⟨routeResp req w, events, [], []⟩

/-! ## Specification-side predicates -/

/-- Spec predicate for C3: position `i` carries a `.php` occurrence, matched
case-insensitively, followed by end-of-string, `/` or `?`. -/
def phpSpecAt (cs : List Char) (i : Nat) : Prop :=
  cs[i]? = some '.'
  ∧ (cs[i + 1]? = some 'p' ∨ cs[i + 1]? = some 'P')
  ∧ (cs[i + 2]? = some 'h' ∨ cs[i + 2]? = some 'H')
  ∧ (cs[i + 3]? = some 'p' ∨ cs[i + 3]? = some 'P')
  ∧ (cs[i + 4]? = none ∨ cs[i + 4]? = some '/' ∨ cs[i + 4]? = some '?')

theorem phpAtHead_iff (cs : List Char) : phpAtHead cs = true ↔ phpSpecAt cs 0 := by
  match cs with
  | [] => simp [phpAtHead, phpSpecAt]
  | [c1] => simp [phpAtHead, phpSpecAt]
  | [c1, c2] => simp [phpAtHead, phpSpecAt]
  | [c1, c2, c3] => simp [phpAtHead, phpSpecAt]
  | c1 :: c2 :: c3 :: c4 :: rest =>
    cases rest with
    | nil =>
      simp [phpAtHead, phpSpecAt, Bool.and_eq_true, Bool.or_eq_true, and_assoc]
    | cons r rs =>
      simp [phpAtHead, phpSpecAt, Bool.and_eq_true, Bool.or_eq_true, and_assoc]

theorem phpSpecAt_cons (c : Char) (cs : List Char) (i : Nat) :
    phpSpecAt (c :: cs) (i + 1) ↔ phpSpecAt cs i := by
  simp [phpSpecAt]

theorem phpScan_iff (cs : List Char) : phpScan cs = true ↔ ∃ i, phpSpecAt cs i := by
  induction cs with
  | nil =>
    simp [phpScan, phpSpecAt]
  | cons c cs ih =>
    simp only [phpScan, Bool.or_eq_true, ih, phpAtHead_iff]
    constructor
    · rintro (h | ⟨i, hi⟩)
      · exact ⟨0, h⟩
      · exact ⟨i + 1, (phpSpecAt_cons c cs i).mpr hi⟩
    · rintro ⟨i, hi⟩
      cases i with
      | zero => exact Or.inl hi
      | succ j => exact Or.inr ⟨j, (phpSpecAt_cons c cs j).mp hi⟩

/-! ## Claim theorems -/

/-- C1: for every inbound request, any error raised while constructing
telemetry metadata or submitting the AccessEvent is caught and discarded,
and the HTTP response (status, body and headers alike) is identical to what
it would be had no telemetry been attempted.  The theorem quantifies over
all injected telemetry faults, including `constructThrow`, under which no
submission is attempted at all, so the response is independent of the whole
telemetry path. -/
theorem C1_telemetry_never_alters_response (req : Req) (env : Env) (w : World)
    (f g : TelemetryFault) :
    (handleFetch req env w f).resp = (handleFetch req env w g).resp := by
  cases h : gatewayResult (normPath req.pathname) req env w with
  | none => simp [handleFetch, h]
  | some t => obtain ⟨r, puts, qs⟩ := t; simp [handleFetch, h]

/-- C3: `isPhpPath p` is true exactly when `p` contains a `.php` occurrence
followed by end-of-string, `/` or `?`, case-insensitively; and the concrete
table of the spec holds.  `isPhpPath` is a total Lean function by
construction, hence pure and never failing. -/
theorem C3_isPhpPath_correct :
    (∀ p : String, isPhpPath p = true ↔ ∃ i, phpSpecAt p.data i)
    ∧ isPhpPath "/admin.php" = true
    ∧ isPhpPath "/a.php" = true
    ∧ isPhpPath "/x.php/y" = true
    ∧ isPhpPath "/a.php/b" = true
    ∧ isPhpPath "/x.php?a=1" = true
    ∧ isPhpPath "/a.php?x=1" = true
    ∧ isPhpPath "/aphp" = false
    ∧ isPhpPath "/phpfoo" = false
    ∧ isPhpPath "/a.phps" = false :=
  ⟨fun p => phpScan_iff p.data, by decide, by decide, by decide, by decide,
    by decide, by decide, by decide, by decide, by decide⟩

/-- Witness for C3 at a concrete path: the iff applied at `/x.php/y` with the
match position exhibited explicitly. -/
theorem C3_isPhpPath_witness : isPhpPath "/x.php/y" = true :=
  (C3_isPhpPath_correct.1 "/x.php/y").mpr ⟨2, by decide, by decide, by decide,
    by decide, by decide⟩

/-! ## Gateway helper lemmas and shared fixtures -/

/-- The observable result components relevant to the reporting gateway. -/
def resultTriple (r : HResult) : Resp × List KvPut × List String :=
  (r.resp, r.kvPuts, r.queries)

theorem gateway_authorized (req : Req) (env : Env) (w : World)
    (hapi : isAPIPath (normPath req.pathname) = true)
    (hauth : env.QUERY_TOKEN = ""
      ∨ bearerToken (req.authorization.getD "") = env.QUERY_TOKEN) :
    gatewayResult (normPath req.pathname) req env w
      = some (apiRoute (normPath req.pathname) w) := by
  have hb : (env.QUERY_TOKEN != ""
      && bearerToken (req.authorization.getD "") != env.QUERY_TOKEN) = false := by
    rcases hauth with h | h <;> simp [h]
  simp [gatewayResult, hapi, hb]

theorem gateway_unauthorized (req : Req) (env : Env) (w : World)
    (hapi : isAPIPath (normPath req.pathname) = true)
    (htok : env.QUERY_TOKEN ≠ "")
    (hne : bearerToken (req.authorization.getD "") ≠ env.QUERY_TOKEN) :
    gatewayResult (normPath req.pathname) req env w
      = some (⟨401, .textBody "Unauthorized\n", []⟩, [], []) := by
  have hb : (env.QUERY_TOKEN != ""
      && bearerToken (req.authorization.getD "") != env.QUERY_TOKEN) = true := by
    simp [bne_iff_ne, htok, hne]
  simp [gatewayResult, hapi, hb]

theorem handleFetch_gateway (req : Req) (env : Env) (w : World) (f : TelemetryFault)
    (t : Resp × List KvPut × List String)
    (h : gatewayResult (normPath req.pathname) req env w = some t) :
    resultTriple (handleFetch req env w f) = t := by
  obtain ⟨r, puts, qs⟩ := t
  simp [handleFetch, resultTriple, h]

/-- An empty key-value cache. -/
def kvEmpty : String → Option Js := fun _ => none

/-- A stub forwarding response. -/
def respStub : Resp := ⟨200, .textBody "origin", []⟩

/-- A stub service-binding response. -/
def svcStub : Resp := ⟨200, .textBody "svc", []⟩

/-- A base world: empty cache, healthy upstream returning `{"data": []}`. -/
def wBase : World :=
  ⟨kvEmpty, true, 200, some "", some (Js.obj [("data", Js.arr [])]), "id-1",
    respStub, svcStub, "TypeError: put undefined", "SyntaxError: parse"⟩

/-! ## C5 -/

/-- C5: for reporting-namespace requests, a non-empty configured token makes
the gate answer 401 (with no cache writes and no upstream queries) unless
the presented bearer credential equals the token, in which case the request
proceeds to routing; an empty configured token skips the check entirely and
every request proceeds to routing. -/
theorem C5_reporting_token_gate (req : Req) (env : Env) (w : World)
    (f : TelemetryFault)
    (hapi : isAPIPath (normPath req.pathname) = true) :
    (env.QUERY_TOKEN ≠ "" →
      bearerToken (req.authorization.getD "") ≠ env.QUERY_TOKEN →
      (handleFetch req env w f).resp = ⟨401, .textBody "Unauthorized\n", []⟩
        ∧ (handleFetch req env w f).kvPuts = []
        ∧ (handleFetch req env w f).queries = [])
    ∧ (env.QUERY_TOKEN ≠ "" →
      bearerToken (req.authorization.getD "") = env.QUERY_TOKEN →
      resultTriple (handleFetch req env w f) = apiRoute (normPath req.pathname) w)
    ∧ (env.QUERY_TOKEN = "" →
      resultTriple (handleFetch req env w f) = apiRoute (normPath req.pathname) w) := by
  refine ⟨fun h1 h2 => ?_, fun h1 h2 => ?_, fun h1 => ?_⟩
  · have ht := handleFetch_gateway req env w f _ (gateway_unauthorized req env w hapi h1 h2)
    exact ⟨congrArg Prod.fst ht, congrArg (fun t => t.2.1) ht,
      congrArg (fun t => t.2.2) ht⟩
  · exact handleFetch_gateway req env w f _ (gateway_authorized req env w hapi (Or.inr h2))
  · exact handleFetch_gateway req env w f _ (gateway_authorized req env w hapi (Or.inl h1))

/-- Request fixture for the C5 witness. -/
def reqC5 : Req := ⟨"example.com", "/_php_log_top", none, some "Bearer s", Js.undefined⟩

/-- Witness for C5: with configured token `s` and header `Bearer s`, the
request proceeds to routing. -/
theorem C5_witness :
    resultTriple (handleFetch reqC5 ⟨"s", "acc", "tok"⟩ wBase TelemetryFault.ok)
      = apiRoute (normPath reqC5.pathname) wBase :=
  (C5_reporting_token_gate reqC5 ⟨"s", "acc", "tok"⟩ wBase TelemetryFault.ok
    (by decide)).2.1 (by decide) (by decide)

/-! ## C10 -/

/-- C10 (amended): with a non-empty configured token, a credential is only
recognised when the authorization header starts with the exact,
case-sensitive seven-character prefix `Bearer ` (capital B, single trailing
space); any other spelling extracts the empty token and the request is
rejected with 401 even when the rest of the header equals the configured
token. -/
theorem C10_bearer_prefix_exact (req : Req) (env : Env) (w : World)
    (f : TelemetryFault)
    (hapi : isAPIPath (normPath req.pathname) = true)
    (htok : env.QUERY_TOKEN ≠ "")
    (hpre : strStarts (req.authorization.getD "") "Bearer " = false) :
    bearerToken (req.authorization.getD "") = ""
    ∧ (handleFetch req env w f).resp = ⟨401, .textBody "Unauthorized\n", []⟩ := by
  have hb : bearerToken (req.authorization.getD "") = "" := by
    simp [bearerToken, hpre]
  have hne : bearerToken (req.authorization.getD "") ≠ env.QUERY_TOKEN := by
    rw [hb]; exact Ne.symm htok
  have ht := handleFetch_gateway req env w f _
    (gateway_unauthorized req env w hapi htok hne)
  exact ⟨hb, congrArg Prod.fst ht⟩

/-- The eight-character count in C10 is wrong: the recognised prefix
`Bearer ` has seven characters, and the remainder after those seven
characters is the extracted credential. -/
theorem C10_counterexample :
    ("Bearer ").length = 7 ∧ bearerToken "Bearer secret" = "secret"
      ∧ bearerToken "bearer secret" = "" := by
  refine ⟨by decide, by decide, by decide⟩

/-- Request fixture for the C10 witness: lowercase scheme, rest of header
equals the configured token. -/
def reqC10 : Req := ⟨"example.com", "/_php_log", none, some "bearer s", Js.undefined⟩

/-- Witness for C10: `bearer s` against configured token `s` extracts the
empty credential and is rejected with 401. -/
theorem C10_witness :
    bearerToken (reqC10.authorization.getD "") = ""
    ∧ (handleFetch reqC10 ⟨"s", "acc", "tok"⟩ wBase TelemetryFault.ok).resp
      = ⟨401, .textBody "Unauthorized\n", []⟩ :=
  C10_bearer_prefix_exact reqC10 ⟨"s", "acc", "tok"⟩ wBase TelemetryFault.ok
    (by decide) (by decide) (by decide)

/-! ## cacheFlow lemmas -/

theorem cacheFlow_hit (p : String) (w : World) (sql : String) (cached : Js)
    (hkv : w.kv p = some cached) (htr : cached.truthy = true) :
    cacheFlow p w sql
      = (⟨200, .jsonBody cached, [ctJson, ("x-cache", "HIT")]⟩, [], []) := by
  simp only [cacheFlow, hkv, htr, if_true]

theorem cacheFlow_noHit (p : String) (w : World) (sql : String)
    (h : kvHit (w.kv p) = false) : cacheFlow p w sql = missFlow p w sql := by
  cases hkv : w.kv p with
  | none => simp [cacheFlow, hkv]
  | some c =>
    rw [hkv] at h
    have hc : c.truthy = false := h
    simp [cacheFlow, hkv, hc]

theorem missFlow_queries (p : String) (w : World) (sql : String) :
    (missFlow p w sql).2.2 = [sql] := by
  simp only [missFlow]
  cases w.upstreamOk with
  | false => rfl
  | true =>
    cases w.upstreamJson with
    | none => rfl
    | some result => cases h : (result.get "data").isUndefined <;> simp [h]

theorem missFlow_success (p : String) (w : World) (sql : String) (result : Js)
    (hok : w.upstreamOk = true) (hjson : w.upstreamJson = some result)
    (hdata : (result.get "data").isUndefined = false) :
    missFlow p w sql
      = (⟨200, .jsonBody (result.get "data"), [ctJson, ("x-cache", "MISS")]⟩,
         [⟨p, result.get "data", 60⟩], [sql]) := by
  simp only [missFlow, hok, hjson, if_true]
  simp [hdata]

theorem missFlow_upstream_error (p : String) (w : World) (sql : String)
    (hok : w.upstreamOk = false) :
    missFlow p w sql
      = (⟨500, .textBody ("Error: AE API: " ++ toString w.upstreamStatus ++ ": "
          ++ w.upstreamText.getD "" ++ "\n"), []⟩, [], [sql]) := by
  simp only [missFlow, hok]
  rfl

theorem cacheFlow_miss_queries (p : String) (w : World) (sql : String)
    (hkv : w.kv p = none) : (cacheFlow p w sql).2.2 = [sql] := by
  rw [cacheFlow_noHit p w sql (by rw [hkv]; rfl)]
  exact missFlow_queries p w sql

theorem cacheFlow_miss_success (p : String) (w : World) (sql : String) (result : Js)
    (hkv : w.kv p = none) (hok : w.upstreamOk = true)
    (hjson : w.upstreamJson = some result)
    (hdata : (result.get "data").isUndefined = false) :
    cacheFlow p w sql
      = (⟨200, .jsonBody (result.get "data"), [ctJson, ("x-cache", "MISS")]⟩,
         [⟨p, result.get "data", 60⟩], [sql]) := by
  rw [cacheFlow_noHit p w sql (by rw [hkv]; rfl)]
  exact missFlow_success p w sql result hok hjson hdata

theorem cacheFlow_upstream_error (p : String) (w : World) (sql : String)
    (hkv : w.kv p = none) (hok : w.upstreamOk = false) :
    cacheFlow p w sql
      = (⟨500, .textBody ("Error: AE API: " ++ toString w.upstreamStatus ++ ": "
          ++ w.upstreamText.getD "" ++ "\n"), []⟩, [], [sql]) := by
  rw [cacheFlow_noHit p w sql (by rw [hkv]; rfl)]
  exact missFlow_upstream_error p w sql hok

theorem handleFetch_apiRoute (req : Req) (env : Env) (w : World) (f : TelemetryFault)
    (hapi : isAPIPath (normPath req.pathname) = true)
    (hauth : env.QUERY_TOKEN = ""
      ∨ bearerToken (req.authorization.getD "") = env.QUERY_TOKEN)
    (sql : String) (hdisp : dispatchSql (normPath req.pathname) = some sql) :
    resultTriple (handleFetch req env w f) = cacheFlow (normPath req.pathname) w sql := by
  have ht := handleFetch_gateway req env w f _ (gateway_authorized req env w hapi hauth)
  simp only [apiRoute, hdisp] at ht
  exact ht

/-! ## C7 -/

/-- Request fixture for C7/C8/C9 witnesses: reporting path, open access. -/
def reqRep : Req := ⟨"example.com", "/_php_log_top", none, none, Js.undefined⟩

/-- Environment fixture with an empty (disabled) reporting token. -/
def envOpen : Env := ⟨"", "acc", "tok"⟩

/-- World with a present but falsy (null) cached payload under the top
reporting path.  The system itself can create such an entry: an upstream
body `{"data": null}` is stored as the JSON text `null`, which the typed
KV read then returns as the null value. -/
def wFalsy : World :=
  ⟨fun k => if k == "/_php_log_top" then some Js.null else none, true, 200,
    some "", some (Js.obj [("data", Js.arr [])]), "id-1", respStub, svcStub,
    "TypeError: put undefined", "SyntaxError: parse"⟩

/-- C7 counterexample: a cache entry exists under the requested reporting
path, yet the request still issues an upstream query — the hit test in the
code is the truthiness check `if (cachedResponse)`, so a present falsy
payload (here null) is treated as a miss, contradicting the claim that any
existing entry is returned with HIT and zero upstream queries. -/
theorem C7_counterexample :
    wFalsy.kv "/_php_log_top" = some Js.null
      ∧ (handleFetch reqRep envOpen wFalsy TelemetryFault.ok).queries = [sqlTop] :=
  ⟨rfl, rfl⟩

/-- C7 (amended): on an authorized, supported reporting path, a present and
truthy cached payload is returned as-is with cache status HIT and zero
upstream queries and zero cache writes; when the hit test fails — the key
is absent, or the present payload is falsy (the code tests
`if (cachedResponse)`) — exactly one upstream query is issued, and when the
upstream succeeds with a parsed body carrying a `data` field, that field is
written to the cache under the path key with a TTL of 60 seconds (exactly
one write) and returned with cache status MISS. -/
theorem C7_cache_read_through (req : Req) (env : Env) (w : World)
    (f : TelemetryFault)
    (hapi : isAPIPath (normPath req.pathname) = true)
    (hauth : env.QUERY_TOKEN = ""
      ∨ bearerToken (req.authorization.getD "") = env.QUERY_TOKEN)
    (sql : String) (hdisp : dispatchSql (normPath req.pathname) = some sql) :
    (∀ cached, w.kv (normPath req.pathname) = some cached →
      cached.truthy = true →
      (handleFetch req env w f).resp
          = ⟨200, .jsonBody cached, [ctJson, ("x-cache", "HIT")]⟩
        ∧ (handleFetch req env w f).queries = []
        ∧ (handleFetch req env w f).kvPuts = [])
    ∧ (kvHit (w.kv (normPath req.pathname)) = false →
        (handleFetch req env w f).queries = [sql])
    ∧ (kvHit (w.kv (normPath req.pathname)) = false → w.upstreamOk = true →
      ∀ result, w.upstreamJson = some result →
        (result.get "data").isUndefined = false →
        (handleFetch req env w f).kvPuts
            = [⟨normPath req.pathname, result.get "data", 60⟩]
          ∧ (handleFetch req env w f).resp
            = ⟨200, .jsonBody (result.get "data"), [ctJson, ("x-cache", "MISS")]⟩) := by
  have ht := handleFetch_apiRoute req env w f hapi hauth sql hdisp
  refine ⟨fun cached hkv htr => ?_, fun hmiss => ?_,
    fun hmiss hok result hjson hdata => ?_⟩
  · have h1 := ht.trans (cacheFlow_hit (normPath req.pathname) w sql cached hkv htr)
    exact ⟨congrArg Prod.fst h1, congrArg (fun t => t.2.2) h1,
      congrArg (fun t => t.2.1) h1⟩
  · have h2 := ht.trans (cacheFlow_noHit (normPath req.pathname) w sql hmiss)
    exact (congrArg (fun t => t.2.2) h2).trans (missFlow_queries _ w sql)
  · have h3 := (ht.trans (cacheFlow_noHit (normPath req.pathname) w sql hmiss)).trans
      (missFlow_success (normPath req.pathname) w sql result hok hjson hdata)
    exact ⟨congrArg (fun t => t.2.1) h3, congrArg Prod.fst h3⟩

/-- Witness for C7: first request on an empty cache performs the upstream
query, stores the `data` field with TTL 60 and answers MISS. -/
theorem C7_witness :
    (handleFetch reqRep envOpen wBase TelemetryFault.ok).kvPuts
        = [⟨normPath reqRep.pathname, (Js.obj [("data", Js.arr [])]).get "data", 60⟩]
      ∧ (handleFetch reqRep envOpen wBase TelemetryFault.ok).resp
        = ⟨200, .jsonBody ((Js.obj [("data", Js.arr [])]).get "data"),
            [ctJson, ("x-cache", "MISS")]⟩ :=
  (C7_cache_read_through reqRep envOpen wBase TelemetryFault.ok (by decide)
    (Or.inl rfl) sqlTop (by decide)).2.2 rfl rfl (Js.obj [("data", Js.arr [])])
    rfl (by decide)

/-! ## C8 -/

/-- C8: on a cache miss where the upstream analytics query responds with a
non-success status, the system responds 500 with a plain-text body carrying
the upstream status code and the upstream body text (a failed body read
contributes the empty string instead), and no cache entry is written. -/
theorem C8_upstream_failure (req : Req) (env : Env) (w : World)
    (f : TelemetryFault)
    (hapi : isAPIPath (normPath req.pathname) = true)
    (hauth : env.QUERY_TOKEN = ""
      ∨ bearerToken (req.authorization.getD "") = env.QUERY_TOKEN)
    (sql : String) (hdisp : dispatchSql (normPath req.pathname) = some sql)
    (hkv : w.kv (normPath req.pathname) = none)
    (hok : w.upstreamOk = false) :
    (handleFetch req env w f).resp.status = 500
    ∧ (handleFetch req env w f).resp.body
        = .textBody ("Error: AE API: " ++ toString w.upstreamStatus ++ ": "
            ++ w.upstreamText.getD "" ++ "\n")
    ∧ (handleFetch req env w f).kvPuts = []
    ∧ (∃ a b, "Error: AE API: " ++ toString w.upstreamStatus ++ ": "
          ++ w.upstreamText.getD "" ++ "\n"
          = a ++ toString w.upstreamStatus ++ b)
    ∧ (∃ a b, "Error: AE API: " ++ toString w.upstreamStatus ++ ": "
          ++ w.upstreamText.getD "" ++ "\n"
          = a ++ w.upstreamText.getD "" ++ b)
    ∧ (w.upstreamText = none → w.upstreamText.getD "" = "") := by
  have ht := (handleFetch_apiRoute req env w f hapi hauth sql hdisp).trans
    (cacheFlow_upstream_error (normPath req.pathname) w sql hkv hok)
  have hr := congrArg Prod.fst ht
  refine ⟨congrArg Resp.status hr, congrArg Resp.body hr,
    congrArg (fun t => t.2.1) ht,
    ⟨"Error: AE API: ", ": " ++ w.upstreamText.getD "" ++ "\n",
      by simp [String.append_assoc]⟩,
    ⟨"Error: AE API: " ++ toString w.upstreamStatus ++ ": ", "\n",
      by simp [String.append_assoc]⟩,
    fun h => by rw [h]; rfl⟩

/-- World fixture for the C8 witness: empty cache, upstream answering 500
with body text `boom`. -/
def wErr : World :=
  ⟨kvEmpty, false, 500, some "boom", none, "id-1", respStub, svcStub,
    "TypeError: put undefined", "SyntaxError: parse"⟩

/-- Witness for C8: upstream 500 on a miss yields a 500 with the status in
the body and no cache write. -/
theorem C8_witness :
    (handleFetch reqRep envOpen wErr TelemetryFault.ok).resp.status = 500
    ∧ (handleFetch reqRep envOpen wErr TelemetryFault.ok).resp.body
        = .textBody ("Error: AE API: " ++ toString wErr.upstreamStatus ++ ": "
            ++ wErr.upstreamText.getD "" ++ "\n")
    ∧ (handleFetch reqRep envOpen wErr TelemetryFault.ok).kvPuts = [] := by
  have h := C8_upstream_failure reqRep envOpen wErr TelemetryFault.ok (by decide)
    (Or.inl rfl) sqlTop (by decide) rfl rfl
  exact ⟨h.1, h.2.1, h.2.2.1⟩

/-! ## C9 -/

theorem missFlow_parse_fail (p : String) (w : World) (sql : String)
    (hok : w.upstreamOk = true) (hjson : w.upstreamJson = none) :
    missFlow p w sql = (⟨500, .textBody (w.parseErr ++ "\n"), []⟩, [], [sql]) := by
  simp only [missFlow, hok, hjson, if_true]

theorem cacheFlow_parse_fail (p : String) (w : World) (sql : String)
    (hkv : w.kv p = none) (hok : w.upstreamOk = true)
    (hjson : w.upstreamJson = none) :
    cacheFlow p w sql = (⟨500, .textBody (w.parseErr ++ "\n"), []⟩, [], [sql]) := by
  rw [cacheFlow_noHit p w sql (by rw [hkv]; rfl)]
  exact missFlow_parse_fail p w sql hok hjson

/-- World fixture: upstream 200 whose body fails to parse as JSON. -/
def wParse : World :=
  ⟨kvEmpty, true, 200, some "", none, "id-1", respStub, svcStub,
    "TypeError: put undefined", "SyntaxError: parse"⟩

/-- C9 counterexample: on a cache miss the index.ts consumer answers a
successful upstream response with a malformed body by propagating the parse
failure as a 500, not by returning a well-formed empty payload. -/
theorem C9_counterexample :
    (handleFetch reqRep envOpen wParse TelemetryFault.ok).resp.status = 500 := rfl

/-- C9 (amended): the general-purpose query helper `queryAnalyticsEngine`
treats a malformed or non-JSON body on a successful upstream response as an
empty object, so its caller receives the well-formed empty result; the
cached reporting gateway in index.ts instead propagates the parse failure as
a 500 response with the runtime error text and writes no cache entry. -/
theorem C9_malformed_json_split (status : Nat) (txt : Option String) :
    queryAnalyticsEngine true status txt none = .ok ⟨0, []⟩
    ∧ (∀ req env w f, isAPIPath (normPath req.pathname) = true →
        (env.QUERY_TOKEN = ""
          ∨ bearerToken (req.authorization.getD "") = env.QUERY_TOKEN) →
        ∀ sql, dispatchSql (normPath req.pathname) = some sql →
        w.kv (normPath req.pathname) = none → w.upstreamOk = true →
        w.upstreamJson = none →
        (handleFetch req env w f).resp = ⟨500, .textBody (w.parseErr ++ "\n"), []⟩
          ∧ (handleFetch req env w f).kvPuts = []) := by
  refine ⟨rfl, fun req env w f hapi hauth sql hdisp hkv hok hjson => ?_⟩
  have ht := (handleFetch_apiRoute req env w f hapi hauth sql hdisp).trans
    (cacheFlow_parse_fail (normPath req.pathname) w sql hkv hok hjson)
  exact ⟨congrArg Prod.fst ht, congrArg (fun t => t.2.1) ht⟩

/-- Witness for C9 at concrete inputs: the helper yields the empty result on
parse failure, and the gateway yields a 500. -/
theorem C9_witness :
    queryAnalyticsEngine true 200 (some "") none = .ok ⟨0, []⟩
    ∧ ((handleFetch reqRep envOpen wParse TelemetryFault.ok).resp
        = ⟨500, .textBody (wParse.parseErr ++ "\n"), []⟩
      ∧ (handleFetch reqRep envOpen wParse TelemetryFault.ok).kvPuts = []) :=
  ⟨(C9_malformed_json_split 200 (some "")).1,
    (C9_malformed_json_split 200 (some "")).2 reqRep envOpen wParse
      TelemetryFault.ok (by decide) (Or.inl rfl) sqlTop (by decide) rfl rfl rfl⟩

/-! ## C6 -/

/-- Substring containment, used to pin the window and row-limit clauses of
the two canned queries. -/
def strContains (s pat : String) : Prop := ∃ a b, s = a ++ pat ++ b

/-- C6 counterexample: an unknown reporting path is NOT answered 404
regardless of authorization state; with a configured token and no
credential the answer is 401. -/
theorem C6_counterexample :
    (handleFetch ⟨"example.com", "/_php_log_bogus", none, none, Js.undefined⟩
      ⟨"secret", "acc", "tok"⟩ wBase TelemetryFault.ok).resp.status = 401 := rfl

/-- C6 (amended): `/_php_log_last` maps to the recent-events query (1-day
window, 20 rows), `/_php_log_top` and the bare `/_php_log` map to the
top-paths query (1-month window, 20 rows), every other string maps to no
query; for requests that pass the authorization gate, an unmapped reporting
path is answered 404 (with a non-empty token and a bad credential the gate
answers 401 first, so the 404 is not `regardless of authorization state`),
and on a cache miss the issued upstream query is exactly the mapped one. -/
theorem C6_dispatch (req : Req) (env : Env) (w : World) (f : TelemetryFault) :
    dispatchSql "/_php_log_last" = some sqlLast
    ∧ dispatchSql "/_php_log_top" = some sqlTop
    ∧ dispatchSql "/_php_log" = some sqlTop
    ∧ strContains sqlLast ("INTERVAL " ++ sqc ++ "1" ++ sqc ++ " DAY")
    ∧ strContains sqlLast "LIMIT 20"
    ∧ strContains sqlTop ("INTERVAL " ++ sqc ++ "1" ++ sqc ++ " MONTH")
    ∧ strContains sqlTop "LIMIT 20"
    ∧ (∀ p, p ≠ "/_php_log_last" → p ≠ "/_php_log" → p ≠ "/_php_log_top" →
        dispatchSql p = none)
    ∧ (isAPIPath (normPath req.pathname) = true →
        (env.QUERY_TOKEN = ""
          ∨ bearerToken (req.authorization.getD "") = env.QUERY_TOKEN) →
        dispatchSql (normPath req.pathname) = none →
        (handleFetch req env w f).resp = ⟨404, .textBody "API not found\n", []⟩
          ∧ (handleFetch req env w f).queries = []
          ∧ (handleFetch req env w f).kvPuts = [])
    ∧ ((env.QUERY_TOKEN = ""
          ∨ bearerToken (req.authorization.getD "") = env.QUERY_TOKEN) →
        w.kv (normPath req.pathname) = none →
        ((normPath req.pathname = "/_php_log_last" →
            (handleFetch req env w f).queries = [sqlLast])
          ∧ (normPath req.pathname = "/_php_log_top" →
            (handleFetch req env w f).queries = [sqlTop])
          ∧ (normPath req.pathname = "/_php_log" →
            (handleFetch req env w f).queries = [sqlTop]))) := by
  refine ⟨rfl, rfl, rfl,
    ⟨"SELECT timestamp, blob1 AS path, blob2 AS country, blob3 AS region, blob4 AS ua, blob5 AS asn FROM PHP_LOG WHERE timestamp >= NOW() - ",
      " ORDER BY timestamp DESC LIMIT 20", by decide⟩,
    ⟨"SELECT timestamp, blob1 AS path, blob2 AS country, blob3 AS region, blob4 AS ua, blob5 AS asn FROM PHP_LOG WHERE timestamp >= NOW() - INTERVAL "
        ++ sqc ++ "1" ++ sqc ++ " DAY ORDER BY timestamp DESC ",
      "", by decide⟩,
    ⟨"SELECT blob1 AS path, count() AS hits FROM PHP_LOG WHERE timestamp >= NOW() - ",
      " GROUP BY path ORDER BY hits DESC LIMIT 20", by decide⟩,
    ⟨"SELECT blob1 AS path, count() AS hits FROM PHP_LOG WHERE timestamp >= NOW() - INTERVAL "
        ++ sqc ++ "1" ++ sqc ++ " MONTH GROUP BY path ORDER BY hits DESC ",
      "", by decide⟩,
    fun p h1 h2 h3 => ?_, fun hapi hauth hdisp => ?_, fun hauth hkv => ?_⟩
  · have e1 : (p == "/_php_log_last") = false := beq_eq_false_iff_ne.mpr h1
    have e2 : (p == "/_php_log") = false := beq_eq_false_iff_ne.mpr h2
    have e3 : (p == "/_php_log_top") = false := beq_eq_false_iff_ne.mpr h3
    simp [dispatchSql, e1, e2, e3]
  · have ht := handleFetch_gateway req env w f _ (gateway_authorized req env w hapi hauth)
    simp only [apiRoute, hdisp] at ht
    exact ⟨congrArg Prod.fst ht, congrArg (fun t => t.2.2) ht,
      congrArg (fun t => t.2.1) ht⟩
  · refine ⟨fun hp => ?_, fun hp => ?_, fun hp => ?_⟩
    · have hapi : isAPIPath (normPath req.pathname) = true := by rw [hp]; decide
      have hdisp : dispatchSql (normPath req.pathname) = some sqlLast := by rw [hp]; rfl
      have ht := congrArg (fun t => t.2.2)
        (handleFetch_apiRoute req env w f hapi hauth sqlLast hdisp)
      exact ht.trans (cacheFlow_miss_queries (normPath req.pathname) w sqlLast hkv)
    · have hapi : isAPIPath (normPath req.pathname) = true := by rw [hp]; decide
      have hdisp : dispatchSql (normPath req.pathname) = some sqlTop := by rw [hp]; rfl
      have ht := congrArg (fun t => t.2.2)
        (handleFetch_apiRoute req env w f hapi hauth sqlTop hdisp)
      exact ht.trans (cacheFlow_miss_queries (normPath req.pathname) w sqlTop hkv)
    · have hapi : isAPIPath (normPath req.pathname) = true := by rw [hp]; decide
      have hdisp : dispatchSql (normPath req.pathname) = some sqlTop := by rw [hp]; rfl
      have ht := congrArg (fun t => t.2.2)
        (handleFetch_apiRoute req env w f hapi hauth sqlTop hdisp)
      exact ht.trans (cacheFlow_miss_queries (normPath req.pathname) w sqlTop hkv)

/-- Request fixture for the C6 witness: unknown reporting path, open access. -/
def reqC6 : Req := ⟨"example.com", "/_php_log_bogus", none, none, Js.undefined⟩

/-- Witness for C6: with open access the unknown reporting path is answered
404 with no queries and no cache writes. -/
theorem C6_witness :
    (handleFetch reqC6 envOpen wBase TelemetryFault.ok).resp
        = ⟨404, .textBody "API not found\n", []⟩
      ∧ (handleFetch reqC6 envOpen wBase TelemetryFault.ok).queries = []
      ∧ (handleFetch reqC6 envOpen wBase TelemetryFault.ok).kvPuts = [] :=
  (C6_dispatch reqC6 envOpen wBase TelemetryFault.ok).2.2.2.2.2.2.2.2.1
    (by decide) (Or.inl rfl) rfl

/-! ## C4 -/

/-- Spec-side object field lookup: the field when present on an object,
`none` when missing or when the value is not an object. -/
def jsField (j : Js) (k : String) : Option Js :=
  match j with
  | .obj fs => lookupField fs k
  | _ => none

/-- Spec-side country default: the `country` metadata when it is a string,
otherwise `ZZ`. -/
def specCountry (cf : Js) : String :=
  match jsField cf "country" with
  | some (.str s) => s
  | _ => "ZZ"

/-- Spec-side region default: the `region` metadata when it is a string,
otherwise the empty string. -/
def specRegion (cf : Js) : String :=
  match jsField cf "region" with
  | some (.str s) => s
  | _ => ""

/-- Spec-side asn field as the code computes it: `0` only when the `asn`
metadata is missing, `null` or `undefined`; otherwise the string conversion
of the present value, whatever its type. -/
def specAsn (cf : Js) : String :=
  match jsField cf "asn" with
  | some .null => "0"
  | some .undefined => "0"
  | some v => jsString v
  | none => "0"

theorem cfNorm_get (cf : Js) (k : String) :
    (if cf.truthy then cf else Js.obj []).get k = (jsField cf k).getD Js.undefined := by
  cases cf with
  | obj fs =>
    show (Js.obj fs).get k = (lookupField fs k).getD Js.undefined
    rfl
  | undefined => rfl
  | null => rfl
  | bool b => cases b <;> rfl
  | num n =>
    cases hb : ((n : Int) != 0) <;>
      simp [Js.truthy, hb, Js.get, jsField, lookupField]
  | str s =>
    cases hb : (s != "") <;>
      simp [Js.truthy, hb, Js.get, jsField, lookupField]
  | arr xs => rfl

theorem cfCountry_spec (cf : Js) :
    cfCountry (if cf.truthy then cf else Js.obj []) = specCountry cf := by
  unfold cfCountry specCountry
  rw [cfNorm_get]
  cases jsField cf "country" with
  | none => rfl
  | some v => cases v <;> rfl

theorem cfRegion_spec (cf : Js) :
    cfRegion (if cf.truthy then cf else Js.obj []) = specRegion cf := by
  unfold cfRegion specRegion
  rw [cfNorm_get]
  cases jsField cf "region" with
  | none => rfl
  | some v => cases v <;> rfl

theorem cfAsn_spec (cf : Js) :
    cfAsn (if cf.truthy then cf else Js.obj []) = specAsn cf := by
  unfold cfAsn specAsn
  rw [cfNorm_get]
  cases jsField cf "asn" with
  | none => rfl
  | some v => cases v <;> rfl

theorem extractCfInfo_spec (cf : Js) :
    extractCfInfo cf = (specCountry cf, specRegion cf, specAsn cf) := by
  show (cfCountry (if cf.truthy then cf else Js.obj []),
      cfRegion (if cf.truthy then cf else Js.obj []),
      cfAsn (if cf.truthy then cf else Js.obj []))
    = (specCountry cf, specRegion cf, specAsn cf)
  rw [cfCountry_spec, cfRegion_spec, cfAsn_spec]

theorem handleFetch_events (req : Req) (env : Env) (w : World)
    (f : TelemetryFault) :
    (handleFetch req env w f).events
      = telemetryEvents (normPath req.pathname) req w.uuid f := by
  cases h : gatewayResult (normPath req.pathname) req env w with
  | none => simp [handleFetch, h]
  | some t => obtain ⟨r, puts, qs⟩ := t; simp [handleFetch, h]

/-- C4 (amended): when the telemetry construction does not itself throw,
every flagged request attempts exactly one AccessEvent submission and every
unflagged request attempts none; the submitted record has
blobs = [path, country, region, user-agent truncated to at most 140
characters, asn] in that order, doubles = [1] and indexes = [the generated
unique id]; country defaults to `ZZ` and region to the empty string when the
metadata is missing or not a string, while asn defaults to `0` only when the
metadata is missing, `null` or `undefined` and is otherwise the string
conversion of whatever value is present. -/
theorem C4_flagged_event (req : Req) (env : Env) (w : World)
    (f : TelemetryFault) (hf : f ≠ TelemetryFault.constructThrow) :
    (isPhpPath (normPath req.pathname) = true →
      (handleFetch req env w f).events
        = [⟨[normPath req.pathname, specCountry req.cf, specRegion req.cf,
             strTake (req.userAgent.getD "") 140, specAsn req.cf],
            [1], [w.uuid]⟩])
    ∧ (isPhpPath (normPath req.pathname) = false →
      (handleFetch req env w f).events = [])
    ∧ (strTake (req.userAgent.getD "") 140).length ≤ 140 := by
  refine ⟨fun hphp => ?_, fun hphp => ?_, ?_⟩
  · rw [handleFetch_events]
    cases f with
    | constructThrow => exact absurd rfl hf
    | ok => simp [telemetryEvents, hphp, extractCfInfo_spec]
    | writeThrow => simp [telemetryEvents, hphp, extractCfInfo_spec]
    | writeReject => simp [telemetryEvents, hphp, extractCfInfo_spec]
  · rw [handleFetch_events]
    simp [telemetryEvents, hphp]
  · show (((req.userAgent.getD "").data.take 140).length : Nat) ≤ 140
    exact List.length_take_le 140 _

/-- Request fixture for the C4 counterexample: a flagged path whose `asn`
metadata is present but of the wrong type (a boolean). -/
def reqC4 : Req :=
  ⟨"example.com", "/x.php", none, none, Js.obj [("asn", Js.bool true)]⟩

/-- C4 counterexample: with `asn` metadata of the wrong type (the boolean
`true`), the submitted asn blob is its string conversion `true`, not the
claimed default `0`. -/
theorem C4_counterexample :
    (handleFetch reqC4 envOpen wBase TelemetryFault.ok).events
        = [⟨["/x.php", "ZZ", "", "", "true"], [1], ["id-1"]⟩]
      ∧ ("true" : String) ≠ "0" :=
  ⟨rfl, by decide⟩

/-- Request fixture for the C4 witness: a flagged path with a long
user-agent and missing metadata. -/
def reqC4w : Req :=
  ⟨"example.com", "/wp-admin.php", some (String.mk (List.replicate 200 'a')),
    none, Js.undefined⟩

/-- Witness for C4: a flagged request with missing metadata and a
200-character user-agent submits one event with the defaults and the
truncated user-agent. -/
theorem C4_witness :
    (handleFetch reqC4w envOpen wBase TelemetryFault.writeReject).events
        = [⟨[normPath reqC4w.pathname, specCountry reqC4w.cf, specRegion reqC4w.cf,
             strTake (reqC4w.userAgent.getD "") 140, specAsn reqC4w.cf],
            [1], [wBase.uuid]⟩]
      ∧ (strTake (reqC4w.userAgent.getD "") 140).length ≤ 140 :=
  ⟨((C4_flagged_event reqC4w envOpen wBase TelemetryFault.writeReject
      (by intro h; cases h)).1 (by decide)),
    (C4_flagged_event reqC4w envOpen wBase TelemetryFault.writeReject
      (by intro h; cases h)).2.2⟩

/-! ## C2: specification-side shape of the normalizer -/

/-- Element shape for `meta.schema.columns`: the values accepted by the code
predicate `c && typeof c.name === 'string'` are exactly the objects with a
string `name` field; this returns that name. -/
def colName (c : Js) : Option String :=
  match c with
  | .obj fs =>
    match lookupField fs "name" with
    | some (.str s) => some s
    | _ => none
  | _ => none

/-- Element shape for the two plain-string column locations. -/
def strOnly (c : Js) : Option String :=
  match c with
  | .str s => some s
  | _ => none

/-- Spec-side type check of one column location: an array whose every
element satisfies the expected shape wins and yields the extracted names. -/
def colsCheck (p : Js → Option String) (o : Option Js) : Option (List String) :=
  match o with
  | some (Js.arr cs) =>
    if cs.all (fun c => (p c).isSome)
    then some (cs.map (fun c => (p c).getD ""))
    else none
  | _ => none

/-- Spec-side location 1: `meta.schema.columns[].name`. -/
def schemaColsCheck (b : Js) : Option (List String) :=
  colsCheck colName (jsAt b ["meta", "schema", "columns"])

/-- Spec-side location 2: `meta.columns[]` (already strings). -/
def metaColsCheck (b : Js) : Option (List String) :=
  colsCheck strOnly (jsAt b ["meta", "columns"])

/-- Spec-side location 3: top-level `columns[]` (already strings). -/
def topColsCheck (b : Js) : Option (List String) :=
  colsCheck strOnly (jsAt b ["columns"])

/-- Spec-side column ladder: first location that type-checks wins, else the
empty list. -/
def specColumns (b : Js) : List String :=
  (schemaColsCheck b).getD
    ((metaColsCheck b).getD ((topColsCheck b).getD []))

/-- Spec-side row location: field `k` of the body when it is an array. -/
def arrField (b : Js) (k : String) : Option (List Js) :=
  match jsField b k with
  | some (.arr xs) => some xs
  | _ => none

/-- Spec-side row ladder: the first of `data`, `rows`, `result`, `items`
that is an array, else the empty list. -/
def specRows (b : Js) : List Js :=
  (arrField b "data").getD
    ((arrField b "rows").getD
      ((arrField b "result").getD ((arrField b "items").getD [])))

theorem jsAt_undef_getD (ks : List String) :
    (jsAt Js.undefined ks).getD Js.undefined = Js.undefined := by
  cases ks <;> rfl

theorem jsAt_getD (ks : List String) (b : Js) :
    List.foldl Js.get b ks = (jsAt b ks).getD Js.undefined := by
  induction ks generalizing b with
  | nil => rfl
  | cons k ks ih =>
    rw [List.foldl_cons, ih]
    cases b with
    | obj fs =>
      cases h : lookupField fs k with
      | some v => simp [Js.get, jsAt, h]
      | none => simp [Js.get, jsAt, h, jsAt_undef_getD]
    | undefined => simpa [Js.get, jsAt] using jsAt_undef_getD ks
    | null => simpa [Js.get, jsAt] using jsAt_undef_getD ks
    | bool b => simpa [Js.get, jsAt] using jsAt_undef_getD ks
    | num n => simpa [Js.get, jsAt] using jsAt_undef_getD ks
    | str s => simpa [Js.get, jsAt] using jsAt_undef_getD ks
    | arr xs => simpa [Js.get, jsAt] using jsAt_undef_getD ks

theorem chain3_eq (b : Js) :
    ((b.get "meta").get "schema").get "columns"
      = (jsAt b ["meta", "schema", "columns"]).getD Js.undefined :=
  jsAt_getD ["meta", "schema", "columns"] b

theorem chain2_eq (b : Js) :
    (b.get "meta").get "columns" = (jsAt b ["meta", "columns"]).getD Js.undefined :=
  jsAt_getD ["meta", "columns"] b

theorem chain1_eq (b : Js) :
    b.get "columns" = (jsAt b ["columns"]).getD Js.undefined :=
  jsAt_getD ["columns"] b

theorem schemaColPred_eq (c : Js) :
    (c.truthy && ((c.get "name").typeofStr == "string")) = (colName c).isSome := by
  cases c with
  | obj fs =>
    show (true && (((lookupField fs "name").getD Js.undefined).typeofStr == "string"))
      = (colName (Js.obj fs)).isSome
    rw [Bool.true_and]
    have hc : colName (Js.obj fs)
        = (match lookupField fs "name" with
           | some (Js.str s) => some s
           | _ => none) := rfl
    rw [hc]
    cases hl : lookupField fs "name" with
    | none => simp [Js.typeofStr]
    | some v => cases v <;> simp [Js.typeofStr]
  | undefined => simp [Js.truthy, colName]
  | null => simp [Js.truthy, colName]
  | bool b => cases b <;> simp [Js.truthy, Js.get, Js.typeofStr, colName]
  | num n =>
    show ((n != 0) && (Js.undefined.typeofStr == "string")) = false
    rw [show (Js.undefined.typeofStr == "string") = false from rfl, Bool.and_false]
  | str s =>
    show ((s != "") && (Js.undefined.typeofStr == "string")) = false
    rw [show (Js.undefined.typeofStr == "string") = false from rfl, Bool.and_false]
  | arr xs => simp [Js.truthy, Js.get, Js.typeofStr, colName]

theorem strColPred_eq (c : Js) :
    (c.typeofStr == "string") = (strOnly c).isSome := by
  cases c <;> simp [Js.typeofStr, strOnly]

theorem schemaColPred_funext :
    (fun c : Js => c.truthy && ((c.get "name").typeofStr == "string"))
      = (fun c => (colName c).isSome) :=
  funext schemaColPred_eq

theorem strColPred_funext :
    (fun c : Js => c.typeofStr == "string") = (fun c => (strOnly c).isSome) :=
  funext strColPred_eq

theorem colName_obj (fs : List (String × Js)) :
    colName (Js.obj fs)
      = (match lookupField fs "name" with
         | some (Js.str s) => some s
         | _ => none) := rfl

theorem colName_get (c : Js) (s : String) (h : colName c = some s) :
    jsString (c.get "name") = s := by
  cases c <;> try exact Option.noConfusion h
  case obj fs =>
    rw [colName_obj] at h
    cases hl : lookupField fs "name" with
    | none => rw [hl] at h; exact Option.noConfusion h
    | some v =>
      rw [hl] at h
      cases v <;> try exact Option.noConfusion h
      case str s0 =>
        have h1 : s0 = s := Option.some.inj h
        show jsString ((lookupField fs "name").getD Js.undefined) = s
        rw [hl]
        exact h1

theorem strOnly_eq (c : Js) (s : String) (h : strOnly c = some s) :
    jsString c = s := by
  cases c <;> try exact Option.noConfusion h
  case str s0 => exact Option.some.inj h

theorem colsBranch_eq (o : Option Js) (p : Js → Option String) (f : Js → String)
    (rest restS : List String) (hrest : rest = restS)
    (hf : ∀ c s, p c = some s → f c = s) :
    (if (o.getD Js.undefined).isArr
        && (o.getD Js.undefined).elems.all (fun c => (p c).isSome)
     then (o.getD Js.undefined).elems.map f
     else rest)
    = (colsCheck p o).getD restS := by
  cases o with
  | none => simpa [colsCheck, Js.isArr] using hrest
  | some v =>
    cases v with
    | arr cs =>
      simp only [Option.getD_some, Js.isArr, Js.elems, Bool.true_and, colsCheck]
      cases hall : cs.all (fun c => (p c).isSome) with
      | true =>
        simp only [if_true, Option.getD_some]
        apply List.map_congr_left
        intro c hc
        have hs : (p c).isSome = true := by
          simpa using List.all_eq_true.mp hall c hc
        obtain ⟨s, hps⟩ := Option.isSome_iff_exists.mp hs
        rw [hf c s hps, hps]
        rfl
      | false => simpa using hrest
    | undefined => simpa [colsCheck, Js.isArr] using hrest
    | null => simpa [colsCheck, Js.isArr] using hrest
    | bool b => simpa [colsCheck, Js.isArr] using hrest
    | num n => simpa [colsCheck, Js.isArr] using hrest
    | str s => simpa [colsCheck, Js.isArr] using hrest
    | obj fs => simpa [colsCheck, Js.isArr] using hrest

/-- The column extractor implements the spec ladder. -/
theorem extractCols_eq_spec (b : Js) : extractCols b = specColumns b := by
  cases b with
  | obj fs =>
    simp only [extractCols]
    rw [show (!(Js.obj fs).truthy || !((Js.obj fs).typeofStr == "object")) = false from rfl,
      if_neg Bool.false_ne_true]
    rw [chain3_eq, chain2_eq, chain1_eq]
    simp only [schemaColPred_funext, strColPred_funext]
    unfold specColumns schemaColsCheck metaColsCheck topColsCheck
    exact colsBranch_eq _ colName (fun c => jsString (c.get "name")) _ _
      (colsBranch_eq _ strOnly jsString _ _
        (colsBranch_eq _ strOnly jsString [] [] rfl strOnly_eq) strOnly_eq)
      colName_get
  | undefined => rfl
  | null => rfl
  | bool b => cases b <;> rfl
  | num n =>
    have hg : (!(Js.num n).truthy || !((Js.num n).typeofStr == "object")) = true := by
      rw [show ((Js.num n).typeofStr == "object") = false from rfl]
      simp
    simp [extractCols, hg, specColumns, schemaColsCheck, metaColsCheck,
      topColsCheck, colsCheck, jsAt]
  | str s =>
    have hg : (!(Js.str s).truthy || !((Js.str s).typeofStr == "object")) = true := by
      rw [show ((Js.str s).typeofStr == "object") = false from rfl]
      simp
    simp [extractCols, hg, specColumns, schemaColsCheck, metaColsCheck,
      topColsCheck, colsCheck, jsAt]
  | arr xs => rfl

theorem arrField_obj (fs : List (String × Js)) (k : String) :
    arrField (Js.obj fs) k
      = (match lookupField fs k with
         | some (Js.arr xs) => some xs
         | _ => none) := rfl

theorem arrVal_get (fs : List (String × Js)) (k : String) :
    arrVal ((Js.obj fs).get k) = arrField (Js.obj fs) k := by
  rw [arrField_obj]
  show arrVal ((lookupField fs k).getD Js.undefined) = _
  cases hl : lookupField fs k with
  | none => rfl
  | some v => cases v <;> rfl

/-- The row extractor implements the spec ladder. -/
theorem extractRows_eq_spec (b : Js) : extractRows b = specRows b := by
  cases b with
  | obj fs =>
    unfold extractRows specRows
    rw [show (!(Js.obj fs).truthy || !((Js.obj fs).typeofStr == "object")) = false from rfl,
      if_neg Bool.false_ne_true]
    rw [arrVal_get, arrVal_get, arrVal_get, arrVal_get]
  | undefined => rfl
  | null => rfl
  | bool b => cases b <;> rfl
  | num n =>
    have hg : (!(Js.num n).truthy || !((Js.num n).typeofStr == "object")) = true := by
      rw [show ((Js.num n).typeofStr == "object") = false from rfl]
      simp
    simp [extractRows, hg, specRows, arrField, jsField, arrVal]
  | str s =>
    have hg : (!(Js.str s).truthy || !((Js.str s).typeofStr == "object")) = true := by
      rw [show ((Js.str s).typeofStr == "object") = false from rfl]
      simp
    simp [extractRows, hg, specRows, arrField, jsField, arrVal]
  | arr xs => rfl

/-! ## C2: zipping lemmas -/

/-- Spec-side zip of column names against one row-major row, preserving
column order; a missing row entry is `undefined` (as in the code, where the
loop runs over the column indices). -/
def zipCols : List String → List Js → List (String × Js)
  | [], _ => []
  | k :: ks, [] => (k, Js.undefined) :: zipCols ks []
  | k :: ks, v :: vs => (k, v) :: zipCols ks vs

theorem objSet_fresh (fs : List (String × Js)) (k : String) (v : Js)
    (h : fs.any (fun p => p.1 == k) = false) : objSet fs k v = fs ++ [(k, v)] := by
  simp [objSet, h]

theorem zipRowAux_arr (ys : List Js) (ks : List String) :
    ∀ (i : Nat) (fs : List (String × Js)), ks.Nodup →
    (∀ k ∈ ks, fs.any (fun p => p.1 == k) = false) →
    zipRowAux (Js.arr ys) ks i fs = some (fs ++ zipCols ks (ys.drop i)) := by
  induction ks with
  | nil =>
    intro i fs _ _
    simp [zipRowAux, zipCols]
  | cons k ks ih =>
    intro i fs hnd hfresh
    have hk : fs.any (fun p => p.1 == k) = false :=
      hfresh k (List.mem_cons_self k ks)
    have hkmem : k ∉ ks := (List.nodup_cons.mp hnd).1
    have hnd2 : ks.Nodup := (List.nodup_cons.mp hnd).2
    have hfresh2 : ∀ k2 ∈ ks,
        (fs ++ [(k, (ys[i]?).getD Js.undefined)]).any (fun p => p.1 == k2) = false := by
      intro k2 hk2
      rw [List.any_append, hfresh k2 (List.mem_cons_of_mem _ hk2)]
      simp only [List.any_cons, List.any_nil, Bool.or_false, Bool.false_or]
      exact beq_eq_false_iff_ne.mpr (fun he => hkmem (he ▸ hk2))
    show zipRowAux (Js.arr ys) ks (i + 1) (objSet fs k ((ys[i]?).getD Js.undefined))
      = some (fs ++ zipCols (k :: ks) (ys.drop i))
    rw [objSet_fresh fs k _ hk, ih (i + 1) _ hnd2 hfresh2]
    congr 1
    rw [List.append_assoc]
    congr 1
    cases hd : ys.drop i with
    | nil =>
      have hlen : ys.length ≤ i := List.drop_eq_nil_iff.mp hd
      rw [List.getElem?_eq_none hlen,
        List.drop_eq_nil_iff.mpr (Nat.le_succ_of_le hlen)]
      rfl
    | cons y ys2 =>
      have hv : ys[i]? = some y := by
        have h0 := List.getElem?_drop ys i 0
        rw [hd] at h0
        simpa using h0.symm
      have hd1 : ys.drop (i + 1) = ys2 := by
        rw [← List.tail_drop, hd]
        rfl
      rw [hv, hd1]
      rfl

theorem zipRow_arr (cols : List String) (hnd : cols.Nodup) (ys : List Js) :
    zipRow cols (Js.arr ys) = some (Js.obj (zipCols cols ys)) := by
  unfold zipRow
  rw [zipRowAux_arr ys cols 0 [] hnd (fun k _ => rfl)]
  simp

theorem mapOpt_arr (cols : List String) (hnd : cols.Nodup) (rows : List Js)
    (hrows : ∀ r ∈ rows, r.isArr = true) :
    mapOpt (zipRow cols) rows
      = some (rows.map (fun r => Js.obj (zipCols cols r.elems))) := by
  induction rows with
  | nil => rfl
  | cons r rs ih =>
    obtain ⟨ys, rfl⟩ : ∃ ys, r = Js.arr ys := by
      have := hrows r (List.mem_cons_self r rs)
      cases r <;> simp [Js.isArr] at this
      exact ⟨_, rfl⟩
    show (match zipRow cols (Js.arr ys) with
      | some y => (mapOpt (zipRow cols) rs).map (fun zs => y :: zs)
      | none => none) = _
    rw [zipRow_arr cols hnd ys, ih (fun r hr => hrows r (List.mem_cons_of_mem _ hr))]
    rfl

/-- The values on which JavaScript numeric indexing throws a TypeError:
`null` and `undefined` (the nullish values).  Every other value can stand
as a row in the zip loop without throwing. -/
def Js.nullish : Js → Bool
  | .null => true
  | .undefined => true
  | _ => false

/-- Spec-side zip of one row against the column names, exactly as the
amended claim describes the loop: keys are the column names in column
order, a later duplicate column name overwrites its value in place, and
the i-th column receives the row element at index i under JavaScript
indexing (undefined for out-of-range positions and for row kinds without
indexed elements). -/
def zipFieldsAux : List String → Js → Nat → List (String × Js) → List (String × Js)
  | [], _, _, fs => fs
  | k :: ks, row, i, fs =>
    zipFieldsAux ks row (i + 1) (objSet fs k ((rowIndex row i).getD Js.undefined))

/-- The object fields produced by zipping `cols` against `row`. -/
def zipFields (cols : List String) (row : Js) : List (String × Js) :=
  zipFieldsAux cols row 0 []

theorem rowIndex_nonNullish (r : Js) (h : r.nullish = false) (i : Nat) :
    rowIndex r i = some ((rowIndex r i).getD Js.undefined) := by
  cases r with
  | null => exact Bool.noConfusion h
  | undefined => exact Bool.noConfusion h
  | bool b => rfl
  | num n => rfl
  | str s => rfl
  | arr xs => rfl
  | obj fs => rfl

theorem zipRowAux_nonNullish (row : Js) (h : row.nullish = false) :
    ∀ (ks : List String) (i : Nat) (fs : List (String × Js)),
    zipRowAux row ks i fs = some (zipFieldsAux ks row i fs) := by
  intro ks
  induction ks with
  | nil => intro i fs; rfl
  | cons k ks ih =>
    intro i fs
    show (match rowIndex row i with
      | some v => zipRowAux row ks (i + 1) (objSet fs k v)
      | none => none) = some (zipFieldsAux (k :: ks) row i fs)
    rw [rowIndex_nonNullish row h i]
    exact ih (i + 1) (objSet fs k ((rowIndex row i).getD Js.undefined))

theorem zipRow_nonNullish (cols : List String) (row : Js)
    (h : row.nullish = false) :
    zipRow cols row = some (Js.obj (zipFields cols row)) := by
  unfold zipRow zipFields
  rw [zipRowAux_nonNullish row h cols 0 []]
  rfl

theorem mapOpt_nonNullish (cols : List String) (rows : List Js)
    (hrows : ∀ r ∈ rows, r.nullish = false) :
    mapOpt (zipRow cols) rows
      = some (rows.map (fun r => Js.obj (zipFields cols r))) := by
  induction rows with
  | nil => rfl
  | cons r rs ih =>
    show (match zipRow cols r with
      | some y => (mapOpt (zipRow cols) rs).map (fun zs => y :: zs)
      | none => none) = _
    rw [zipRow_nonNullish cols r (hrows r (List.mem_cons_self r rs)),
      ih (fun r2 hr => hrows r2 (List.mem_cons_of_mem _ hr))]
    rfl

theorem aeNormalize_zip_total (b : Js)
    (hzb : zipBranch (extractCols b) (extractRows b) = true)
    (hrows : ∀ r ∈ extractRows b, r.nullish = false) :
    aeNormalize b
      = some ⟨(extractRows b).length,
          (extractRows b).map
            (fun r => Js.obj (zipFields (extractCols b) r))⟩ := by
  simp only [aeNormalize, hzb, if_true]
  rw [mapOpt_nonNullish (extractCols b) (extractRows b) hrows]
  simp

theorem aeNormalize_zip (b : Js)
    (hzb : zipBranch (extractCols b) (extractRows b) = true)
    (hrows : ∀ r ∈ extractRows b, r.isArr = true)
    (hnd : (extractCols b).Nodup) :
    aeNormalize b
      = some ⟨(extractRows b).length,
          (extractRows b).map (fun r => Js.obj (zipCols (extractCols b) r.elems))⟩ := by
  simp only [aeNormalize, hzb, if_true]
  rw [mapOpt_arr (extractCols b) hnd (extractRows b) hrows]
  simp

theorem aeNormalize_noZip (b : Js)
    (hzb : zipBranch (extractCols b) (extractRows b) = false) :
    aeNormalize b = some ⟨(extractRows b).length, extractRows b⟩ := by
  simp [aeNormalize, hzb]

theorem aeNormalize_count (b : Js) (r : AEQueryResult)
    (h : aeNormalize b = some r) : r.count = r.items.length := by
  cases hzb : zipBranch (extractCols b) (extractRows b) with
  | true =>
    simp only [aeNormalize, hzb, if_true] at h
    cases hm : mapOpt (zipRow (extractCols b)) (extractRows b) with
    | none => rw [hm] at h; cases h
    | some items =>
      rw [hm] at h
      have h1 : (⟨items.length, items⟩ : AEQueryResult) = r := Option.some.inj h
      rw [← h1]
  | false =>
    simp only [aeNormalize, hzb, Bool.false_eq_true, if_false] at h
    have h1 : (⟨(extractRows b).length, extractRows b⟩ : AEQueryResult) = r :=
      Option.some.inj h
    rw [← h1]

/-! ## C2: worked examples, composite theorem, counterexample -/

/-- Worked example 1 of the spec: string columns at `meta.columns`, matrix
rows at `data`. -/
def exMatrix : Js :=
  Js.obj [("meta", Js.obj [("columns", Js.arr [Js.str "a", Js.str "b"])]),
          ("data", Js.arr [Js.arr [Js.num 1, Js.num 2],
                           Js.arr [Js.num 3, Js.num 4]])]

/-- Worked example 2 of the spec: object rows, no columns. -/
def exObjRows : Js := Js.obj [("data", Js.arr [Js.obj [("x", Js.num 1)]])]

/-- C2 (amended): the response-shape normalizer extracts columns by the
three-location priority ladder and rows by the four-field priority ladder;
when columns are non-empty and the first row is an array, it zips every row
against the column names into an object — keys in column order, a later
duplicate column overwriting in place, the i-th column receiving the row
element at index i under JavaScript indexing (undefined when out of range
or for row kinds without indexed elements) — provided no row is nullish
(`null` or `undefined`), since indexing a nullish row throws instead of
producing a result (see the counterexample); otherwise it returns the rows
unchanged; it returns count equal to the item-list length and satisfies the
three worked examples.  The all-array specialisation (the spec's row-major
matrix form, with distinct column names) is also stated, as a corollary of
the general zip clause. -/
theorem C2_normalizer (b : Js) :
    (∀ ss, schemaColsCheck b = some ss → extractCols b = ss)
    ∧ (∀ ss, schemaColsCheck b = none → metaColsCheck b = some ss →
        extractCols b = ss)
    ∧ (∀ ss, schemaColsCheck b = none → metaColsCheck b = none →
        topColsCheck b = some ss → extractCols b = ss)
    ∧ (schemaColsCheck b = none → metaColsCheck b = none →
        topColsCheck b = none → extractCols b = [])
    ∧ (∀ xs, arrField b "data" = some xs → extractRows b = xs)
    ∧ (∀ xs, arrField b "data" = none → arrField b "rows" = some xs →
        extractRows b = xs)
    ∧ (∀ xs, arrField b "data" = none → arrField b "rows" = none →
        arrField b "result" = some xs → extractRows b = xs)
    ∧ (∀ xs, arrField b "data" = none → arrField b "rows" = none →
        arrField b "result" = none → arrField b "items" = some xs →
        extractRows b = xs)
    ∧ (arrField b "data" = none → arrField b "rows" = none →
        arrField b "result" = none → arrField b "items" = none →
        extractRows b = [])
    ∧ (zipBranch (extractCols b) (extractRows b) = true →
        (∀ r ∈ extractRows b, r.nullish = false) →
        aeNormalize b
          = some ⟨(extractRows b).length,
              (extractRows b).map
                (fun r => Js.obj (zipFields (extractCols b) r))⟩)
    ∧ (zipBranch (extractCols b) (extractRows b) = true →
        (∀ r ∈ extractRows b, r.isArr = true) → (extractCols b).Nodup →
        aeNormalize b
          = some ⟨(extractRows b).length,
              (extractRows b).map
                (fun r => Js.obj (zipCols (extractCols b) r.elems))⟩)
    ∧ (zipBranch (extractCols b) (extractRows b) = false →
        aeNormalize b = some ⟨(extractRows b).length, extractRows b⟩)
    ∧ (∀ r, aeNormalize b = some r → r.count = r.items.length)
    ∧ aeNormalize exMatrix
        = some ⟨2, [Js.obj [("a", Js.num 1), ("b", Js.num 2)],
                    Js.obj [("a", Js.num 3), ("b", Js.num 4)]]⟩
    ∧ aeNormalize exObjRows = some ⟨1, [Js.obj [("x", Js.num 1)]]⟩
    ∧ aeNormalize (Js.obj []) = some ⟨0, []⟩ := by
  refine ⟨fun ss h => ?_, fun ss h1 h2 => ?_, fun ss h1 h2 h3 => ?_,
    fun h1 h2 h3 => ?_, fun xs h => ?_, fun xs h1 h2 => ?_,
    fun xs h1 h2 h3 => ?_, fun xs h1 h2 h3 h4 => ?_, fun h1 h2 h3 h4 => ?_,
    aeNormalize_zip_total b, aeNormalize_zip b, aeNormalize_noZip b,
    aeNormalize_count b, rfl, rfl, rfl⟩
  · rw [extractCols_eq_spec]; simp [specColumns, h]
  · rw [extractCols_eq_spec]; simp [specColumns, h1, h2]
  · rw [extractCols_eq_spec]; simp [specColumns, h1, h2, h3]
  · rw [extractCols_eq_spec]; simp [specColumns, h1, h2, h3]
  · rw [extractRows_eq_spec]; simp [specRows, h]
  · rw [extractRows_eq_spec]; simp [specRows, h1, h2]
  · rw [extractRows_eq_spec]; simp [specRows, h1, h2, h3]
  · rw [extractRows_eq_spec]; simp [specRows, h1, h2, h3, h4]
  · rw [extractRows_eq_spec]; simp [specRows, h1, h2, h3, h4]

/-- Body for the C2 counterexample: columns type-check, the first row is an
array, but a later row is `null`. -/
def cexBody : Js :=
  Js.obj [("meta", Js.obj [("columns", Js.arr [Js.str "a"])]),
          ("data", Js.arr [Js.arr [Js.num 1], Js.null])]

/-- C2 counterexample: on a successfully parsed JSON body whose zip branch
contains a `null` row, the normalizer throws (indexing `null`) instead of
returning a `{ count, items }` payload as the claim asserts for every
parsed body. -/
theorem C2_counterexample : aeNormalize cexBody = none := rfl

/-- Witness for C2: the general zip conjunct applied to the first worked
example. -/
theorem C2_witness :
    aeNormalize exMatrix
      = some ⟨(extractRows exMatrix).length,
          (extractRows exMatrix).map
            (fun r => Js.obj (zipFields (extractCols exMatrix) r))⟩ :=
  (C2_normalizer exMatrix).2.2.2.2.2.2.2.2.2.1 rfl (by decide)
